import Mathlib

/-!
Verification of `plot_scenarios.py`: a script that reads four CSV files
(`cultivation_factor_scenario{1..4}.csv`), draws a 2×2 grid of dual-axis line
charts plus a caption panel, and writes `cultivation_scenarios.png`.

The script is embedded shallowly:
* numeric CSV values are rationals (`ℚ`);
* the Python float pipeline of the tick formatter
  (`f'{x/1e6:.1f}%'`) is modelled exactly: the quotient is rounded to the
  nearest IEEE-754 binary64 value (round-to-nearest, ties-to-even; the inputs
  in scope lie in the normal range, so overflow and subnormal corner cases do
  not arise), and the `.1f` conversion rounds that exact binary value to one
  decimal digit, ties-to-even, as CPython does;
* the linear sequence of library calls is an `Except`-monad program over an
  association-list file system, recording a trace of file reads and column
  accesses, and producing the full figure configuration on success.
-/

namespace PlotScenarios

/-- Round a rational to the nearest integer, ties to even
(the rounding used both by IEEE-754 binary64 arithmetic and by CPython's
fixed-point string conversion). -/
def roundHalfEven (q : ℚ) : ℤ :=
  if Int.fract q < 1/2 then ⌊q⌋
  else if 1/2 < Int.fract q then ⌊q⌋ + 1
  else if ⌊q⌋ % 2 = 0 then ⌊q⌋ else ⌊q⌋ + 1

/-- Round a rational to the nearest IEEE-754 binary64 value (53-bit
significand, round-to-nearest ties-to-even), as exact rational arithmetic.
Valid for the normal range of binary64, which covers every value this
program manipulates. -/
def roundToDouble (q : ℚ) : ℚ :=
  if q = 0 then 0
  else
    let e : ℤ := Int.log 2 |q| - 52
    let m : ℤ := roundHalfEven (|q| * (2 : ℚ) ^ (-e))
    (if q < 0 then -1 else 1) * (m : ℚ) * (2 : ℚ) ^ e

/-- Python float division: exact quotient, rounded to the nearest binary64. -/
def pyDiv (a b : ℚ) : ℚ := roundToDouble (a / b)

/-- Python `f'{v:.1f}'`: the exact value held by the float (in the model, the
rational produced by `roundToDouble`) rounded to one decimal digit,
ties-to-even, and printed with a single digit after the decimal point. -/
def fmt1f (v : ℚ) : String :=
  let t : ℕ := (roundHalfEven (|v| * 10)).toNat
  (if v < 0 then "-" else "") ++ toString (t / 10) ++ "." ++ toString (t % 10)

/-- Embedding of `percentage_formatter` (lines 11-12 of the source): format
the tick value `x` as `f'{x/1e6:.1f}%'`; `1e6` is the float `1000000.0` and
the division is float division. The tick position argument is unused, as in
the source. -/
def percentage_formatter (x : ℚ) (_pos : ℕ) : String :=
  fmt1f (pyDiv x 1000000) ++ "%"

/-! Embedding of the script body: the data model, the error model and the
linear sequence of library calls, as an `Except`-monad program over an
association-list file system. -/

/-- A parsed CSV table, as produced by `pd.read_csv`: named columns of
numeric values. -/
structure Csv where
  columns : List (String × List ℚ)
deriving DecidableEq

/-- Column lookup, `df[name]`: the first column with the given header. -/
def Csv.col (c : Csv) (name : String) : Option (List ℚ) :=
  (c.columns.find? (fun p => p.1 == name)).map (fun p => p.2)

/-- The Python exceptions this program can raise: `FileNotFoundError` from
`pd.read_csv` (line 48), `KeyError` from a column access (lines 57, 61, 83,
84), and the `ValueError` raised by `max()`/`min()` on an empty sequence
(lines 83, 84). -/
inductive PyErr where
  | fileNotFound (name : String)
  | keyError (col : String)
  | valueErrorEmpty
deriving DecidableEq

/-- Observable input operations, in program order: a CSV file read and a
column access on the frame parsed from a given file. -/
inductive Event where
  | readCsv (file : String)
  | getColumn (file : String) (col : String)
deriving DecidableEq

/-- Identifier of the single tick-formatter function the script defines;
`applyFmt` maps it to the function itself. -/
inductive FmtId where
  | percentageFmt
deriving DecidableEq

/-- Interpretation of a formatter identifier as the actual formatter. -/
def applyFmt : FmtId → ℚ → ℕ → String
  | .percentageFmt => percentage_formatter

/-- Parameters of one `plt.savefig` call (line 99). -/
structure SaveRec where
  name : String
  dpi : ℕ
  bboxInches : String
deriving DecidableEq

/-- Configuration of one of the four data subplots after its loop iteration:
plotted series, styling, labels, legend, grid and axis limits, with `ylim2`
the limits of the twin temperature axis. -/
structure Subplot where
  title : String
  xlabel : String
  ylabel1 : String
  ylabel2 : String
  xs1 : List ℚ
  ys1 : List ℚ
  style1 : String
  xs2 : List ℚ
  ys2 : List ℚ
  style2 : String
  color2 : String
  fmt1 : FmtId
  fmt2 : FmtId
  legendLabels : List String
  legendLoc : String
  gridOn : Bool
  gridAlpha : ℚ
  ylim1 : ℚ × ℚ
  ylim2 : ℚ × ℚ
deriving DecidableEq

/-- The completed run: figure-level configuration, the four subplots, the
caption text, the files written (name, dpi, bounding box) and the trace of
input operations. -/
structure Final where
  figsize : ℚ × ℚ
  suptitle : String
  subplots : List Subplot
  descText : String
  writes : List SaveRec
  trace : List Event
deriving DecidableEq

/-- The file system the script touches: CSV files it may read and image
files it may write, both keyed by name in the current working directory.
A written image is recorded as the `Final` figure it renders. -/
structure World where
  files : List (String × Csv)
  images : List (String × Final)
deriving DecidableEq

/-- First-match lookup in an association list of CSV files. -/
def lookupCsv (files : List (String × Csv)) (name : String) : Option Csv :=
  (files.find? (fun p => p.1 == name)).map (fun p => p.2)

/-- First-match lookup in an association list of image files. -/
def lookupImage (images : List (String × Final)) (name : String) : Option Final :=
  (images.find? (fun p => p.1 == name)).map (fun p => p.2)

/-- Write (create or overwrite) an image file. -/
def setImage (images : List (String × Final)) (name : String) (v : Final) :
    List (String × Final) :=
  match images with
  | [] => [(name, v)]
  | (n, u) :: rest =>
      if n == name then (name, v) :: rest else (n, u) :: setImage rest name v

/-- Embedding of `pd.read_csv(file)` (line 48): return the parsed file or
raise `FileNotFoundError`. -/
def read_csv (files : List (String × Csv)) (file : String) : Except PyErr Csv :=
  match lookupCsv files file with
  | some c => .ok c
  | none => .error (.fileNotFound file)

/-- Embedding of a column access `df[name]`: the column values, or a raised
`KeyError` with the missing column name. -/
def getCol (df : Csv) (name : String) : Except PyErr (List ℚ) :=
  match df.col name with
  | some v => .ok v
  | none => .error (.keyError name)

/-- Python builtin `max` over a column (line 83): raises `ValueError` on an
empty sequence. -/
def maxQ : List ℚ → Except PyErr ℚ
  | [] => .error .valueErrorEmpty
  | x :: xs => .ok (xs.foldl max x)

/-- Python builtin `min` over a column (line 84): raises `ValueError` on an
empty sequence. -/
def minQ : List ℚ → Except PyErr ℚ
  | [] => .error .valueErrorEmpty
  | x :: xs => .ok (xs.foldl min x)

/-- The hard-coded scenario list (lines 24-44): file name, subplot title and
caption text for each of the four scenarios. -/
def scenarios : List (String × String × String) :=
  [("cultivation_factor_scenario1.csv",
    "Scenario 1: Single User Demand",
    "User sows at 100% temp limit order with maximum capacity.\nCF rises initially, then stays flat until temp returns to 100%."),
   ("cultivation_factor_scenario2.csv",
    "Scenario 2: High to Low Demand",
    "User1 sows at 100% temp with high capacity, then User2 sows at 90% with lower capacity.\nCF rises initially, then decreases to match User2's capacity."),
   ("cultivation_factor_scenario3.csv",
    "Scenario 3: Continuous High Demand",
    "User1 sows at high temp with max capacity, then User2 sows at lower temp.\nCF continues to rise despite lower temp due to maintained high capacity."),
   ("cultivation_factor_scenario4.csv",
    "Scenario 4: Stable Temperature",
    "Constant temperature scenario testing CF behavior.\nCF increases when soil sells out, decreases when it doesn't.")]

/-- The trace of input operations one loop iteration performs when it
succeeds, in source order: the `pd.read_csv` call (line 48), the column
accesses of the two `plot` calls (lines 57 and 61), the access for
`max(df['cultivation_factor'])` (line 83) and the two accesses for
`min(df['prev_temp'])` and `max(df['prev_temp'])` (line 84). -/
def scenarioEvents (file : String) : List Event :=
  [.readCsv file,
   .getColumn file "iteration", .getColumn file "cultivation_factor",
   .getColumn file "iteration", .getColumn file "prev_temp",
   .getColumn file "cultivation_factor",
   .getColumn file "prev_temp", .getColumn file "prev_temp"]

/-- One iteration of the `for idx, (file, title, description)` loop
(lines 46-84): read the CSV, plot the two series, set formatters, labels,
title, legend and grid, and set the two y-axis ranges. Fallible operations
occur in source order; the resulting subplot configuration and the events
performed are returned on success. -/
def scenarioStep (files : List (String × Csv)) (file : String) (title : String) :
    Except PyErr (Subplot × List Event) := do
  let df ← read_csv files file
  let xs1 ← getCol df "iteration"
  let ys1 ← getCol df "cultivation_factor"
  let xs2 ← getCol df "iteration"
  let ys2 ← getCol df "prev_temp"
  let cfCol ← getCol df "cultivation_factor"
  let cfMax ← maxQ cfCol
  let ptColA ← getCol df "prev_temp"
  let ptMin ← minQ ptColA
  let ptColB ← getCol df "prev_temp"
  let ptMax ← maxQ ptColB
  .ok ({ title := title
         xlabel := "Season"
         ylabel1 := "Cultivation Factor"
         ylabel2 := "Temperature"
         xs1 := xs1, ys1 := ys1, style1 := "o-"
         xs2 := xs2, ys2 := ys2, style2 := "s--", color2 := "red"
         fmt1 := .percentageFmt, fmt2 := .percentageFmt
         legendLabels := ["Cultivation Factor", "Temperature"]
         legendLoc := "upper left"
         gridOn := true, gridAlpha := 3/10
         ylim1 := (0, cfMax * (11/10))
         ylim2 := (ptMin * (99/100), ptMax * (101/100)) },
       scenarioEvents file)

/-- The whole `for` loop, over any scenario list: collects the subplot
configurations and concatenates the traces; the first raised exception
aborts everything after it. -/
def runScens (files : List (String × Csv)) :
    List (String × String × String) → Except PyErr (List Subplot × List Event)
  | [] => .ok ([], [])
  | (file, title, _desc) :: rest => do
      let (sp, ev) ← scenarioStep files file title
      let (sps, evs) ← runScens files rest
      .ok (sp :: sps, ev ++ evs)

/-- The caption text assembled on line 87: for each scenario, its title, a
colon, a newline and its caption, all joined by blank lines. -/
def descText : String :=
  String.intercalate "\n\n" (scenarios.map (fun s => s.2.1 ++ ":\n" ++ s.2.2))

/-- The whole script on a given set of CSV files: either the first raised
exception, or the completed figure together with the single `savefig` write
(line 99: `cultivation_scenarios.png`, `dpi=300`, `bbox_inches='tight'`). -/
def runFiles (files : List (String × Csv)) : Except PyErr Final := do
  let (sps, evs) ← runScens files scenarios
  .ok { figsize := (15, 14)
        suptitle := "Cultivation Factor and Temperature Scenarios"
        subplots := sps
        descText := descText
        writes := [{ name := "cultivation_scenarios.png", dpi := 300, bboxInches := "tight" }]
        trace := evs }

/-- The script as a function of the file system it starts from. The script
reads only CSV files; it never reads an image. -/
def run (w : World) : Except PyErr Final := runFiles w.files

/-- The file system after a run: on success the rendered figure is written
to `cultivation_scenarios.png` (overwriting any previous file of that name);
on a raised exception nothing is written. -/
def afterRun (w : World) : World :=
  match run w with
  | .ok fin => { w with images := setImage w.images "cultivation_scenarios.png" fin }
  | .error _ => w

/-- The save operations a run performs: none when an exception aborts it. -/
def writesOf (r : Except PyErr Final) : List SaveRec :=
  match r with
  | .ok fin => fin.writes
  | .error _ => []

/-- File names the trace reads, in order. -/
def readsOf (evs : List Event) : List String :=
  evs.filterMap (fun e => match e with | .readCsv f => some f | _ => none)

/-- Column names the trace accesses on the frame parsed from file `f`, in
order, with repetitions. -/
def colsOf (evs : List Event) (f : String) : List String :=
  evs.filterMap (fun e =>
    match e with
    | .getColumn g c => if g == f then some c else none
    | _ => none)

/-- Well-formedness of an input CSV, as claimed in the spec: the three
expected columns are present, each with `N` rows. -/
def WFcsv (c : Csv) (N : ℕ) : Prop :=
  ∃ it cf pt, c.col "iteration" = some it ∧ it.length = N ∧
    c.col "cultivation_factor" = some cf ∧ cf.length = N ∧
    c.col "prev_temp" = some pt ∧ pt.length = N

/-- The trace of every successful run: the four per-scenario traces in
scenario order. -/
def fullTrace : List Event := (scenarios.map (fun s => scenarioEvents s.1)).flatten

/-- A concrete well-formed CSV: the three-row table used by the spec's
formatter scenario. -/
def csv0 : Csv :=
  ⟨[("iteration", [1, 2, 3]),
    ("cultivation_factor", [0, 500000, 1000000]),
    ("prev_temp", [900000, 950000, 1000000])]⟩

/-- A concrete world in which all four scenario files hold `csv0`. -/
def w0 : World :=
  ⟨[("cultivation_factor_scenario1.csv", csv0),
    ("cultivation_factor_scenario2.csv", csv0),
    ("cultivation_factor_scenario3.csv", csv0),
    ("cultivation_factor_scenario4.csv", csv0)], []⟩

/-- The subplot produced from `csv0`, for a given title. -/
def sp0 (title : String) : Subplot :=
  { title := title
    xlabel := "Season"
    ylabel1 := "Cultivation Factor"
    ylabel2 := "Temperature"
    xs1 := [1, 2, 3], ys1 := [0, 500000, 1000000], style1 := "o-"
    xs2 := [1, 2, 3], ys2 := [900000, 950000, 1000000], style2 := "s--", color2 := "red"
    fmt1 := .percentageFmt, fmt2 := .percentageFmt
    legendLabels := ["Cultivation Factor", "Temperature"]
    legendLoc := "upper left"
    gridOn := true, gridAlpha := 3/10
    ylim1 := (0, 1100000)
    ylim2 := (891000, 1010000) }

/-- The figure produced by a run on `w0`. -/
def fin0 : Final :=
  { figsize := (15, 14)
    suptitle := "Cultivation Factor and Temperature Scenarios"
    subplots := [sp0 "Scenario 1: Single User Demand", sp0 "Scenario 2: High to Low Demand",
                 sp0 "Scenario 3: Continuous High Demand", sp0 "Scenario 4: Stable Temperature"]
    descText := descText
    writes := [{ name := "cultivation_scenarios.png", dpi := 300, bboxInches := "tight" }]
    trace := fullTrace }

/-- A CSV that parses but has none of the three expected columns. -/
def csvNoCols : Csv := ⟨[("foo", [1])]⟩

/-- A CSV with the three expected columns and zero rows. -/
def csvEmptyCols : Csv :=
  ⟨[("iteration", []), ("cultivation_factor", []), ("prev_temp", [])]⟩

/-- The empty world: no files at all. -/
def wE : World := ⟨[], []⟩

/-- A world where scenario 1 parses without the expected columns and
scenario 2's file is missing. -/
def wC3 : World := ⟨[("cultivation_factor_scenario1.csv", csvNoCols)], []⟩

/-- A world where all four files are present, parse, and have the expected
columns with zero rows. -/
def wN0 : World :=
  ⟨[("cultivation_factor_scenario1.csv", csvEmptyCols),
    ("cultivation_factor_scenario2.csv", csvEmptyCols),
    ("cultivation_factor_scenario3.csv", csvEmptyCols),
    ("cultivation_factor_scenario4.csv", csvEmptyCols)], []⟩

/-- A world where scenario 1 lacks the expected columns and scenario 2 is a
well-formed but empty CSV. -/
def wC9 : World :=
  ⟨[("cultivation_factor_scenario1.csv", csvNoCols),
    ("cultivation_factor_scenario2.csv", csvEmptyCols),
    ("cultivation_factor_scenario3.csv", csvEmptyCols),
    ("cultivation_factor_scenario4.csv", csvEmptyCols)], []⟩

/-! Helper lemmas for evaluating the float model at concrete inputs. -/

/-- Uniqueness characterisation of `Int.log 2` on positive rationals. -/
theorem log2_eq_of {r : ℚ} {L : ℤ} (hr : 0 < r) (h1 : (2:ℚ) ^ L ≤ r)
    (h2 : r < (2:ℚ) ^ (L + 1)) : Int.log 2 r = L := by
  have a := (Int.zpow_le_iff_le_log (b := 2) (by norm_num) hr).mp (by exact_mod_cast h1)
  have b := (Int.lt_zpow_iff_log_lt (b := 2) (by norm_num) hr).mp (by exact_mod_cast h2)
  omega

/-- Half-even rounding never moves a value by more than one half. -/
theorem roundHalfEven_sub_le (q : ℚ) : |(roundHalfEven q : ℚ) - q| ≤ 1/2 := by
  have h0 : 0 ≤ Int.fract q := Int.fract_nonneg q
  have h1 : Int.fract q < 1 := Int.fract_lt_one q
  have h2 : (⌊q⌋ : ℚ) + Int.fract q = q := Int.floor_add_fract q
  rw [roundHalfEven]
  split_ifs with ha hb hc
  · rw [abs_le]; constructor <;> push_cast <;> linarith
  · rw [abs_le]; constructor <;> push_cast <;> linarith
  · have he : Int.fract q = 1/2 := le_antisymm (not_lt.mp hb) (not_lt.mp ha)
    rw [abs_le]; constructor <;> push_cast <;> linarith
  · have he : Int.fract q = 1/2 := le_antisymm (not_lt.mp hb) (not_lt.mp ha)
    rw [abs_le]; constructor <;> push_cast <;> linarith

/-- Half-even rounding preserves nonnegativity. -/
theorem roundHalfEven_nonneg {q : ℚ} (h : 0 ≤ q) : 0 ≤ roundHalfEven q := by
  have := Int.floor_nonneg.mpr h
  rw [roundHalfEven]
  split_ifs <;> omega

/-- Evaluation of `roundToDouble` on a positive value with known exponent and
known rounded significand. -/
theorem roundToDouble_eq_of {q : ℚ} {L m : ℤ} (hq : 0 < q)
    (hlog : Int.log 2 q = L)
    (hm : roundHalfEven (q * 2 ^ (52 - L)) = m) :
    roundToDouble q = (m : ℚ) * 2 ^ (L - 52) := by
  rw [roundToDouble, if_neg (ne_of_gt hq), abs_of_pos hq, hlog]
  dsimp only
  rw [show -(L - 52) = 52 - L by ring, hm, if_neg (not_lt.mpr (le_of_lt hq)), one_mul]

/-! Concrete values of the float pipeline at the raw tick values named in the
spec scenario: `0`, `0.5e6`, `1.0e6` (cultivation factor) and `90e4 = 900000`,
`95e4 = 950000`, `100e4 = 1000000` (previous temperature). -/

/-- Division of the tick value 0 by `1e6` yields the double 0. -/
theorem pyDiv_0 : pyDiv 0 1000000 = 0 := by
  rw [pyDiv, roundToDouble]
  norm_num

/-- Division of the tick value 500000 by `1e6` yields the double `1/2`
(exactly representable). -/
theorem pyDiv_500000 : pyDiv 500000 1000000 = 1/2 := by
  have hq : (500000 : ℚ) / 1000000 = 1/2 := by norm_num
  have hlog : Int.log 2 ((1:ℚ)/2) = -1 :=
    log2_eq_of (by norm_num) (by norm_num) (by norm_num)
  have hm : roundHalfEven ((1:ℚ)/2 * 2 ^ (52 - (-1 : ℤ))) = 4503599627370496 := by
    rw [roundHalfEven]
    norm_num [Int.fract]
  rw [pyDiv, hq, roundToDouble_eq_of (by norm_num) hlog hm]
  norm_num

/-- Division of the tick value 1000000 by `1e6` yields the double 1. -/
theorem pyDiv_1000000 : pyDiv 1000000 1000000 = 1 := by
  have hq : (1000000 : ℚ) / 1000000 = 1 := by norm_num
  have hlog : Int.log 2 (1:ℚ) = 0 :=
    log2_eq_of (by norm_num) (by norm_num) (by norm_num)
  have hm : roundHalfEven ((1:ℚ) * 2 ^ (52 - (0 : ℤ))) = 4503599627370496 := by
    rw [roundHalfEven]
    norm_num [Int.fract]
  rw [pyDiv, hq, roundToDouble_eq_of (by norm_num) hlog hm]
  norm_num

/-- Division of the tick value 900000 by `1e6` yields the double nearest to
`9/10`, which lies slightly above it. -/
theorem pyDiv_900000 : pyDiv 900000 1000000 = 8106479329266893 / 9007199254740992 := by
  have hq : (900000 : ℚ) / 1000000 = 9/10 := by norm_num
  have hlog : Int.log 2 ((9:ℚ)/10) = -1 :=
    log2_eq_of (by norm_num) (by norm_num) (by norm_num)
  have hm : roundHalfEven ((9:ℚ)/10 * 2 ^ (52 - (-1 : ℤ))) = 8106479329266893 := by
    rw [roundHalfEven]
    norm_num [Int.fract]
  rw [pyDiv, hq, roundToDouble_eq_of (by norm_num) hlog hm]
  norm_num

/-- Division of the tick value 950000 by `1e6` yields the double nearest to
`19/20 = 0.95`, which lies slightly below it. -/
theorem pyDiv_950000 : pyDiv 950000 1000000 = 8556839292003942 / 9007199254740992 := by
  have hq : (950000 : ℚ) / 1000000 = 19/20 := by norm_num
  have hlog : Int.log 2 ((19:ℚ)/20) = -1 :=
    log2_eq_of (by norm_num) (by norm_num) (by norm_num)
  have hm : roundHalfEven ((19:ℚ)/20 * 2 ^ (52 - (-1 : ℤ))) = 8556839292003942 := by
    rw [roundHalfEven]
    norm_num [Int.fract]
  rw [pyDiv, hq, roundToDouble_eq_of (by norm_num) hlog hm]
  norm_num

/-- Rendering of the five distinct quotients by the `.1f` conversion. -/
theorem fmt1f_0 : fmt1f 0 = "0.0" := by
  rw [fmt1f]
  rw [show roundHalfEven (|(0:ℚ)| * 10) = 0 by rw [roundHalfEven]; norm_num [Int.fract],
    if_neg (by norm_num)]
  decide

/-- Rendering of the double `1/2` gives the string `0.5`. -/
theorem fmt1f_half : fmt1f (1/2) = "0.5" := by
  rw [fmt1f]
  rw [show roundHalfEven (|(1:ℚ)/2| * 10) = 5 by
        rw [roundHalfEven, abs_of_pos (by norm_num)]; norm_num [Int.fract],
    if_neg (by norm_num)]
  decide

/-- Rendering of the double `1` gives the string `1.0`. -/
theorem fmt1f_one : fmt1f 1 = "1.0" := by
  rw [fmt1f]
  rw [show roundHalfEven (|(1:ℚ)| * 10) = 10 by
        rw [roundHalfEven, abs_of_pos (by norm_num)]; norm_num [Int.fract],
    if_neg (by norm_num)]
  decide

/-- Rendering of the double nearest `9/10` gives the string `0.9`. -/
theorem fmt1f_d9 : fmt1f (8106479329266893 / 9007199254740992) = "0.9" := by
  rw [fmt1f]
  rw [show roundHalfEven (|(8106479329266893:ℚ) / 9007199254740992| * 10) = 9 by
        rw [roundHalfEven, abs_of_pos (by norm_num)]; norm_num [Int.fract],
    if_neg (by norm_num)]
  decide

/-- Rendering of the double nearest `19/20 = 0.95` gives the string `0.9`:
that double lies strictly below `0.95`, so CPython's correctly-rounded `.1f`
conversion rounds it down. -/
theorem fmt1f_d95 : fmt1f (8556839292003942 / 9007199254740992) = "0.9" := by
  rw [fmt1f]
  rw [show roundHalfEven (|(8556839292003942:ℚ) / 9007199254740992| * 10) = 9 by
        rw [roundHalfEven, abs_of_pos (by norm_num)]; norm_num [Int.fract],
    if_neg (by norm_num)]
  decide

/-- Claim C1 (counterexample): the spec scenario asserts that the raw
`prev_temp` value `90e4 = 900000` displays as `90.0%`; the formatter actually
divides by `1e6`, so it displays as `0.9%`. -/
theorem C1_counterexample : percentage_formatter 900000 0 ≠ "90.0%" := by
  rw [percentage_formatter, pyDiv_900000, fmt1f_d9]
  decide

/-- Claim C1 (amended): for the input rows `iteration=[1,2,3]`,
`cultivation_factor=[0,0.5,1.0]*1e6`, `prev_temp=[90,95,100]*1e4`, the axis
tick formatter displays the cultivation-factor values as `0.0%`, `0.5%`,
`1.0%` and the prev-temp values as `0.9%`, `0.9%`, `1.0%` (not `90.0%`,
`95.0%`, `100.0%`: the formatter divides raw values by `1e6`, and
`95e4/1e6 = 0.95` renders as `0.9` because the binary64 value nearest `0.95`
lies strictly below it). -/
theorem C1_amended :
    percentage_formatter 0 0 = "0.0%" ∧
    percentage_formatter 500000 0 = "0.5%" ∧
    percentage_formatter 1000000 0 = "1.0%" ∧
    percentage_formatter 900000 0 = "0.9%" ∧
    percentage_formatter 950000 0 = "0.9%" ∧
    percentage_formatter 1000000 0 = "1.0%" := by
  refine ⟨?_, ?_, ?_, ?_, ?_, ?_⟩
  · rw [percentage_formatter, pyDiv_0, fmt1f_0]; decide
  · rw [percentage_formatter, pyDiv_500000, fmt1f_half]; decide
  · rw [percentage_formatter, pyDiv_1000000, fmt1f_one]; decide
  · rw [percentage_formatter, pyDiv_900000, fmt1f_d9]; decide
  · rw [percentage_formatter, pyDiv_950000, fmt1f_d95]; decide
  · rw [percentage_formatter, pyDiv_1000000, fmt1f_one]; decide

/-! Structural lemmas about the embedded program. -/

/-- An `Except` bind succeeds exactly when both stages succeed. -/
theorem bind_ok_iff {α β : Type} (x : Except PyErr α) (f : α → Except PyErr β) (b : β) :
    (x >>= f) = .ok b ↔ ∃ a, x = .ok a ∧ f a = .ok b := by
  cases x with
  | error e => simp [Bind.bind, Except.bind]
  | ok a => simp [Bind.bind, Except.bind]

/-- A failed first stage aborts an `Except` bind. -/
theorem error_bind {α β : Type} (e : PyErr) (f : α → Except PyErr β) :
    ((Except.error e : Except PyErr α) >>= f) = .error e := rfl

/-- A column access succeeds exactly when the column is present. -/
theorem getCol_ok_iff {df : Csv} {c : String} {v : List ℚ} :
    getCol df c = .ok v ↔ df.col c = some v := by
  rw [getCol]
  cases h : df.col c <;> simp

/-- Characterisation of a successful loop iteration: the events are the fixed
per-scenario trace, the plotted series are the three columns of the parsed
frame (the x series of both plots being the same `iteration` column), and the
axis limits are computed from the column extremes exactly as on lines 83-84. -/
theorem scenarioStep_ok {files : List (String × Csv)} {file title : String}
    {sp : Subplot} {ev : List Event}
    (h : scenarioStep files file title = .ok (sp, ev)) :
    ev = scenarioEvents file ∧
    ∃ df, read_csv files file = .ok df ∧
      df.col "iteration" = some sp.xs1 ∧
      df.col "cultivation_factor" = some sp.ys1 ∧
      df.col "prev_temp" = some sp.ys2 ∧
      sp.xs2 = sp.xs1 ∧
      sp.title = title ∧ sp.fmt1 = .percentageFmt ∧ sp.fmt2 = .percentageFmt ∧
      ∃ cfMax ptMin ptMax,
        maxQ sp.ys1 = .ok cfMax ∧ minQ sp.ys2 = .ok ptMin ∧ maxQ sp.ys2 = .ok ptMax ∧
        sp.ylim1 = (0, cfMax * (11/10)) ∧
        sp.ylim2 = (ptMin * (99/100), ptMax * (101/100)) := by
  simp only [scenarioStep, bind_ok_iff, getCol_ok_iff] at h
  obtain ⟨df, hdf, xs1, hxs1, ys1, hys1, xs2, hxs2, ys2, hys2, cfCol, hcfCol, cfMax, hcfMax,
    ptA, hptA, ptMin, hptMin, ptB, hptB, ptMax, hptMax, hfin⟩ := h
  rw [Except.ok.injEq, Prod.mk.injEq] at hfin
  obtain ⟨hsp, hev⟩ := hfin
  have hcf : cfCol = ys1 := Option.some.inj (hcfCol.symm.trans hys1)
  have hpa : ptA = ys2 := Option.some.inj (hptA.symm.trans hys2)
  have hpb : ptB = ys2 := Option.some.inj (hptB.symm.trans hys2)
  have hx : xs2 = xs1 := Option.some.inj (hxs2.symm.trans hxs1)
  subst hcf hpa hpb hx hsp hev
  exact ⟨rfl, df, hdf, hxs1, hys1, hys2, rfl, rfl, rfl, rfl,
    cfMax, ptMin, ptMax, hcfMax, hptMin, hptMax, rfl, rfl⟩

/-- A loop iteration whose CSV file is absent raises `FileNotFoundError` for
that file. -/
theorem scenarioStep_fileNotFound {files : List (String × Csv)} {file title : String}
    (h : lookupCsv files file = none) :
    scenarioStep files file title = .error (.fileNotFound file) := by
  simp only [scenarioStep, read_csv, h, error_bind]

/-- A loop iteration whose frame is missing one of the three expected columns
raises `KeyError` for the first missing column in access order. -/
theorem scenarioStep_keyError {files : List (String × Csv)} {file title : String} {df : Csv}
    (hdf : lookupCsv files file = some df)
    (hmiss : ¬(∃ a, df.col "iteration" = some a) ∨
      ¬(∃ a, df.col "cultivation_factor" = some a) ∨
      ¬(∃ a, df.col "prev_temp" = some a)) :
    ∃ c, c ∈ ["iteration", "cultivation_factor", "prev_temp"] ∧ df.col c = none ∧
      scenarioStep files file title = .error (.keyError c) := by
  cases hit : df.col "iteration" with
  | none =>
      refine ⟨"iteration", by simp, hit, ?_⟩
      simp only [scenarioStep, read_csv, hdf, getCol, hit, error_bind, Bind.bind, Except.bind]
  | some it =>
      cases hcf : df.col "cultivation_factor" with
      | none =>
          refine ⟨"cultivation_factor", by simp, hcf, ?_⟩
          simp only [scenarioStep, read_csv, hdf, getCol, hit, hcf, error_bind,
            Bind.bind, Except.bind]
      | some cf =>
          cases hpt : df.col "prev_temp" with
          | none =>
              refine ⟨"prev_temp", by simp, hpt, ?_⟩
              simp only [scenarioStep, read_csv, hdf, getCol, hit, hcf, hpt, error_bind,
                Bind.bind, Except.bind]
          | some pt =>
              exfalso
              rcases hmiss with h | h | h
              · exact h ⟨it, hit⟩
              · exact h ⟨cf, hcf⟩
              · exact h ⟨pt, hpt⟩

/-- A loop iteration over a frame that parsed with all three expected columns
but zero rows raises the empty-sequence `ValueError` at the
`max(df['cultivation_factor'])` computation of line 83. -/
theorem scenarioStep_emptyRows {files : List (String × Csv)} {file title : String} {df : Csv}
    (hdf : lookupCsv files file = some df)
    (hit : df.col "iteration" = some [])
    (hcf : df.col "cultivation_factor" = some [])
    (hpt : df.col "prev_temp" = some []) :
    scenarioStep files file title = .error .valueErrorEmpty := by
  simp only [scenarioStep, read_csv, hdf, getCol, hit, hcf, hpt, maxQ,
    Bind.bind, Except.bind]

/-- A loop iteration succeeds whenever its file is present and the frame has
the three expected columns with at least one row. -/
theorem scenarioStep_isOk {files : List (String × Csv)} {file title : String} {df : Csv}
    {it cf pt : List ℚ}
    (hdf : lookupCsv files file = some df)
    (hit : df.col "iteration" = some it)
    (hcf : df.col "cultivation_factor" = some cf)
    (hpt : df.col "prev_temp" = some pt)
    (hcf0 : cf ≠ []) (hpt0 : pt ≠ []) :
    ∃ r, scenarioStep files file title = .ok r := by
  cases cf with
  | nil => exact absurd rfl hcf0
  | cons a as =>
      cases pt with
      | nil => exact absurd rfl hpt0
      | cons b bs =>
          simp only [scenarioStep, read_csv, hdf, getCol, hit, hcf, hpt, maxQ, minQ,
            Bind.bind, Except.bind]
          exact ⟨_, rfl⟩

/-- The trace of a successful run of the loop over a scenario list is the
concatenation of the per-scenario traces, in list order. -/
theorem runScens_ok_events {files : List (String × Csv)}
    {l : List (String × String × String)} {sps : List Subplot} {evs : List Event}
    (h : runScens files l = .ok (sps, evs)) :
    evs = (l.map (fun s => scenarioEvents s.1)).flatten := by
  induction l generalizing sps evs with
  | nil =>
      simp only [runScens, Except.ok.injEq, Prod.mk.injEq] at h
      simp [← h.2]
  | cons s rest ih =>
      obtain ⟨file, title, desc⟩ := s
      simp only [runScens, bind_ok_iff] at h
      obtain ⟨⟨sp, ev⟩, hstep, ⟨sps', evs'⟩, hrest, hfin⟩ := h
      rw [Except.ok.injEq, Prod.mk.injEq] at hfin
      obtain ⟨hsps, hevs⟩ := hfin
      have h1 := (scenarioStep_ok hstep).1
      subst hevs
      simp [ih hrest, h1]

/-- Every subplot of a successful loop run comes from a successful iteration
of some scenario in the list. -/
theorem runScens_ok_mem {files : List (String × Csv)}
    {l : List (String × String × String)} {sps : List Subplot} {evs : List Event}
    (h : runScens files l = .ok (sps, evs)) :
    ∀ sp ∈ sps, ∃ s, s ∈ l ∧ ∃ ev, scenarioStep files s.1 s.2.1 = .ok (sp, ev) := by
  induction l generalizing sps evs with
  | nil =>
      simp only [runScens, Except.ok.injEq, Prod.mk.injEq] at h
      intro sp hsp
      rw [← h.1] at hsp
      exact absurd hsp (List.not_mem_nil sp)
  | cons s rest ih =>
      obtain ⟨file, title, desc⟩ := s
      simp only [runScens, bind_ok_iff] at h
      obtain ⟨⟨sp0, ev⟩, hstep, ⟨sps', evs'⟩, hrest, hfin⟩ := h
      rw [Except.ok.injEq, Prod.mk.injEq] at hfin
      obtain ⟨hsps, hevs⟩ := hfin
      intro sp hsp
      rw [← hsps] at hsp
      rcases List.mem_cons.mp hsp with rfl | hmem
      · exact ⟨(file, title, desc), List.mem_cons_self _ _, ev, hstep⟩
      · obtain ⟨s', hs', hr⟩ := ih hrest sp hmem
        exact ⟨s', List.mem_cons_of_mem _ hs', hr⟩

/-- A successful loop run means every scenario of the list ran successfully. -/
theorem runScens_ok_all {files : List (String × Csv)}
    {l : List (String × String × String)} {sps : List Subplot} {evs : List Event}
    (h : runScens files l = .ok (sps, evs)) :
    ∀ s ∈ l, ∃ r, scenarioStep files s.1 s.2.1 = .ok r := by
  induction l generalizing sps evs with
  | nil => intro s hs; exact absurd hs (List.not_mem_nil s)
  | cons s0 rest ih =>
      obtain ⟨file, title, desc⟩ := s0
      simp only [runScens, bind_ok_iff] at h
      obtain ⟨⟨sp0, ev⟩, hstep, ⟨sps', evs'⟩, hrest, hfin⟩ := h
      intro s hs
      rcases List.mem_cons.mp hs with rfl | hmem
      · exact ⟨(sp0, ev), hstep⟩
      · exact ih hrest s hmem

/-- The loop run fails with the exception of the first failing scenario when
every scenario before it succeeds. -/
theorem runScens_error_of_firstFail {files : List (String × Csv)}
    {pre post : List (String × String × String)} {s : String × String × String} {e : PyErr}
    (hpre : ∀ t ∈ pre, ∃ r, scenarioStep files t.1 t.2.1 = .ok r)
    (herr : scenarioStep files s.1 s.2.1 = .error e) :
    runScens files (pre ++ s :: post) = .error e := by
  induction pre with
  | nil =>
      obtain ⟨file, title, desc⟩ := s
      simp only [List.nil_append, runScens]
      rw [herr, error_bind]
  | cons t rest ih =>
      obtain ⟨⟨sp, ev⟩, hok⟩ := hpre t (List.mem_cons_self _ _)
      have hrest := ih (fun u hu => hpre u (List.mem_cons_of_mem _ hu))
      obtain ⟨file, title, desc⟩ := t
      simp only [List.cons_append, runScens, hok, List.append_eq, hrest,
        Bind.bind, Except.bind]

/-- The loop run succeeds when every scenario of the list succeeds. -/
theorem runScens_ok_of_all {files : List (String × Csv)}
    {l : List (String × String × String)}
    (h : ∀ s ∈ l, ∃ r, scenarioStep files s.1 s.2.1 = .ok r) :
    ∃ ps, runScens files l = .ok ps := by
  induction l with
  | nil => exact ⟨([], []), rfl⟩
  | cons s rest ih =>
      obtain ⟨file, title, desc⟩ := s
      obtain ⟨⟨sp, ev⟩, hok⟩ := h (file, title, desc) (List.mem_cons_self _ _)
      obtain ⟨⟨sps, evs⟩, hrest⟩ := ih (fun t ht => h t (List.mem_cons_of_mem _ ht))
      refine ⟨(sp :: sps, ev ++ evs), ?_⟩
      simp only [runScens]
      rw [hok]
      simp only [Bind.bind, Except.bind, hrest]

/-- A successful whole run is a successful loop run plus the fixed
figure-level configuration and the single `savefig` write. -/
theorem run_ok {w : World} {fin : Final} (h : run w = .ok fin) :
    ∃ sps evs, runScens w.files scenarios = .ok (sps, evs) ∧
      fin.subplots = sps ∧ fin.trace = evs ∧
      fin.writes = [{ name := "cultivation_scenarios.png", dpi := 300, bboxInches := "tight" }] := by
  simp only [run, runFiles, bind_ok_iff] at h
  obtain ⟨⟨sps, evs⟩, hrs, hfin⟩ := h
  rw [Except.ok.injEq] at hfin
  exact ⟨sps, evs, hrs, by rw [← hfin], by rw [← hfin], by rw [← hfin]⟩

/-- Looking up the image just written finds it. -/
theorem lookupImage_setImage_self (l : List (String × Final)) (n : String) (v : Final) :
    lookupImage (setImage l n v) n = some v := by
  induction l with
  | nil => simp [setImage, lookupImage]
  | cons p rest ih =>
      obtain ⟨m, u⟩ := p
      by_cases hm : m = n
      · subst hm
        simp [setImage, lookupImage]
      · simp only [setImage, lookupImage] at *
        rw [if_neg (by simpa using hm)]
        simpa [List.find?, (by simpa using hm : (m == n) = false)] using ih

/-- Writing one image leaves every other name unchanged. -/
theorem lookupImage_setImage_ne (l : List (String × Final)) (n n' : String) (v : Final)
    (h : n' ≠ n) : lookupImage (setImage l n v) n' = lookupImage l n' := by
  induction l with
  | nil =>
      simp [setImage, lookupImage, List.find?, (by simpa using fun a => h a.symm : (n == n') = false)]
  | cons p rest ih =>
      obtain ⟨m, u⟩ := p
      by_cases hm : m = n
      · subst hm
        simp [setImage, lookupImage, List.find?,
          (by simpa using fun a => h a.symm : (m == n') = false)]
      · simp only [setImage]
        rw [if_neg (by simpa using hm)]
        simp only [lookupImage, List.find?] at *
        cases hq : (m == n') <;> simpa [hq] using ih

/-- Overwriting an image with the same content twice is the same as once. -/
theorem setImage_idem (l : List (String × Final)) (n : String) (v : Final) :
    setImage (setImage l n v) n v = setImage l n v := by
  induction l with
  | nil => simp [setImage]
  | cons p rest ih =>
      obtain ⟨m, u⟩ := p
      by_cases hm : m = n
      · subst hm
        simp [setImage]
      · simp only [setImage]
        rw [if_neg (by simpa using hm)]
        simp only [setImage]
        rw [if_neg (by simpa using hm), ih]

/-- A run never touches the CSV files. -/
theorem afterRun_files (w : World) : (afterRun w).files = w.files := by
  rw [afterRun]
  cases run w <;> rfl

/-- A failed run leaves the file system untouched. -/
theorem afterRun_of_error {w : World} {e : PyErr} (h : run w = .error e) :
    afterRun w = w := by
  rw [afterRun, h]

/-- A successful first stage passes its value on in an `Except` bind. -/
theorem ok_bind {α β : Type} (a : α) (f : α → Except PyErr β) :
    ((Except.ok a : Except PyErr α) >>= f) = f a := rfl

/-- Reading a CSV succeeds exactly when the file is present. -/
theorem read_csv_ok_iff {files : List (String × Csv)} {file : String} {df : Csv} :
    read_csv files file = .ok df ↔ lookupCsv files file = some df := by
  rw [read_csv]
  cases h : lookupCsv files file <;> simp

/-- An exception in the loop is the exception of the whole run. -/
theorem run_error_of_runScens {w : World} {e : PyErr}
    (h : runScens w.files scenarios = .error e) : run w = .error e := by
  simp only [run, runFiles]
  rw [h, error_bind]

/-- A failed run performs no save operation. -/
theorem writesOf_error {w : World} {e : PyErr} (h : run w = .error e) :
    writesOf (run w) = [] := by
  rw [h, writesOf]

/-- A successful run implies all four scenario files were present. -/
theorem run_ok_all_files {w : World} {fin : Final} (h : run w = .ok fin) :
    ∀ s ∈ scenarios, ∃ df, lookupCsv w.files s.1 = some df := by
  obtain ⟨sps, evs, hrs, -, -, -⟩ := run_ok h
  intro s hs
  obtain ⟨⟨sp, ev⟩, hstep⟩ := runScens_ok_all hrs s hs
  obtain ⟨-, df, hdf, -⟩ := scenarioStep_ok hstep
  exact ⟨df, read_csv_ok_iff.mp hdf⟩

/-- When every scenario before a given one succeeds and that scenario's file
is missing, the run raises `FileNotFoundError` for that file. -/
theorem run_fnf_first {w : World} {pre post : List (String × String × String)}
    {s : String × String × String}
    (hsplit : scenarios = pre ++ s :: post)
    (hpre : ∀ t ∈ pre, ∃ r, scenarioStep w.files t.1 t.2.1 = .ok r)
    (hmiss : lookupCsv w.files s.1 = none) :
    run w = .error (.fileNotFound s.1) :=
  run_error_of_runScens
    (hsplit ▸ runScens_error_of_firstFail hpre (scenarioStep_fileNotFound hmiss))

/-- When every scenario before a given one succeeds and that scenario's frame
is missing an expected column, the run raises `KeyError` for the first
missing column in access order. -/
theorem run_keyError_first {w : World} {pre post : List (String × String × String)}
    {s : String × String × String} {df : Csv}
    (hsplit : scenarios = pre ++ s :: post)
    (hpre : ∀ t ∈ pre, ∃ r, scenarioStep w.files t.1 t.2.1 = .ok r)
    (hdf : lookupCsv w.files s.1 = some df)
    (hmiss : ¬(∃ a, df.col "iteration" = some a) ∨
      ¬(∃ a, df.col "cultivation_factor" = some a) ∨
      ¬(∃ a, df.col "prev_temp" = some a)) :
    ∃ c, c ∈ ["iteration", "cultivation_factor", "prev_temp"] ∧ df.col c = none ∧
      run w = .error (.keyError c) := by
  obtain ⟨c, hcmem, hcnone, hstep⟩ := scenarioStep_keyError hdf hmiss
  exact ⟨c, hcmem, hcnone,
    run_error_of_runScens (hsplit ▸ runScens_error_of_firstFail hpre hstep)⟩

/-- When every scenario before a given one succeeds and that scenario's frame
has the three expected columns with zero rows, the run raises the
empty-sequence `ValueError` of line 83. -/
theorem run_emptyRows_first {w : World} {pre post : List (String × String × String)}
    {s : String × String × String} {df : Csv}
    (hsplit : scenarios = pre ++ s :: post)
    (hpre : ∀ t ∈ pre, ∃ r, scenarioStep w.files t.1 t.2.1 = .ok r)
    (hdf : lookupCsv w.files s.1 = some df)
    (hit : df.col "iteration" = some [])
    (hcf : df.col "cultivation_factor" = some [])
    (hpt : df.col "prev_temp" = some []) :
    run w = .error .valueErrorEmpty :=
  run_error_of_runScens
    (hsplit ▸ runScens_error_of_firstFail hpre (scenarioStep_emptyRows hdf hit hcf hpt))

/-- A run with any scenario file missing raises some exception. -/
theorem run_error_of_missing {w : World}
    (hmiss : ∃ s ∈ scenarios, lookupCsv w.files s.1 = none) :
    ∃ e, run w = .error e := by
  cases hr : run w with
  | error e => exact ⟨e, rfl⟩
  | ok fin =>
      obtain ⟨s, hs, hnone⟩ := hmiss
      obtain ⟨df, hdf⟩ := run_ok_all_files hr s hs
      rw [hnone] at hdf
      exact absurd hdf (by simp)

/-- A run with any scenario file present, column-complete but row-empty
raises some exception. -/
theorem run_error_of_empty {w : World}
    (hmem : ∃ s ∈ scenarios, ∃ df, lookupCsv w.files s.1 = some df ∧
      df.col "iteration" = some [] ∧ df.col "cultivation_factor" = some [] ∧
      df.col "prev_temp" = some []) :
    ∃ e, run w = .error e := by
  cases hr : run w with
  | error e => exact ⟨e, rfl⟩
  | ok fin =>
      obtain ⟨s, hs, df, hdf, hit, hcf, hpt⟩ := hmem
      obtain ⟨sps, evs, hrs, -, -, -⟩ := run_ok hr
      obtain ⟨⟨sp, ev⟩, hstep⟩ := runScens_ok_all hrs s hs
      obtain ⟨-, df', hdf', -, hcf', -, -, -, -, -, cfMax, -, -, hmax, -⟩ :=
        scenarioStep_ok hstep
      rw [read_csv_ok_iff] at hdf'
      rw [hdf] at hdf'
      have hdfeq : df = df' := Option.some.inj hdf'
      subst hdfeq
      rw [hcf] at hcf'
      have hnil : sp.ys1 = [] := (Option.some.inj hcf').symm
      rw [hnil] at hmax
      exact absurd hmax (by simp [maxQ])

/-- Evaluation of the run on the concrete world `w0`. -/
theorem run_w0 : run w0 = .ok fin0 := by
  simp [run, runFiles, runScens, scenarios, scenarioStep, read_csv, lookupCsv, w0, csv0,
    Csv.col, getCol, maxQ, minQ, List.find?, Bind.bind, Except.bind, fin0, sp0, fullTrace,
    scenarioEvents, max_def, min_def, descText]
  norm_num

/-- Claim C2: on every successful run, both y-axes of every subplot carry the
one formatter `percentage_formatter`, and for every raw axis value `x` that
formatter renders the float quotient `x/1e6` with exactly one digit after the
decimal point (the nearest tenth, half-to-even) followed by `%`. -/
theorem C2_formatter_everywhere :
    (∀ (w : World) (fin : Final), run w = .ok fin → ∀ sp ∈ fin.subplots,
      applyFmt sp.fmt1 = percentage_formatter ∧ applyFmt sp.fmt2 = percentage_formatter) ∧
    (∀ (x : ℚ) (pos : ℕ), ∃ t : ℕ,
      percentage_formatter x pos =
        (if pyDiv x 1000000 < 0 then "-" else "") ++
          toString (t / 10) ++ "." ++ toString (t % 10) ++ "%" ∧
      (toString (t % 10)).length = 1 ∧
      |(t : ℚ) - |pyDiv x 1000000| * 10| ≤ 1/2) := by
  constructor
  · intro w fin h sp hsp
    obtain ⟨sps, evs, hrs, hsub, -, -⟩ := run_ok h
    obtain ⟨s, -, ev, hstep⟩ := runScens_ok_mem hrs sp (by rw [← hsub]; exact hsp)
    obtain ⟨-, df, -, -, -, -, -, -, hf1, hf2, -⟩ := scenarioStep_ok hstep
    exact ⟨by rw [hf1]; rfl, by rw [hf2]; rfl⟩
  · intro x pos
    refine ⟨(roundHalfEven (|pyDiv x 1000000| * 10)).toNat, rfl, ?_, ?_⟩
    · have hlt : (roundHalfEven (|pyDiv x 1000000| * 10)).toNat % 10 < 10 :=
        Nat.mod_lt _ (by norm_num)
      set k := (roundHalfEven (|pyDiv x 1000000| * 10)).toNat % 10 with hk
      interval_cases k <;> decide
    · have hq0 : (0:ℚ) ≤ |pyDiv x 1000000| * 10 := by positivity
      have hrn : 0 ≤ roundHalfEven (|pyDiv x 1000000| * 10) := roundHalfEven_nonneg hq0
      rw [show (((roundHalfEven (|pyDiv x 1000000| * 10)).toNat : ℕ) : ℚ)
          = ((roundHalfEven (|pyDiv x 1000000| * 10) : ℤ) : ℚ) by
        exact_mod_cast congrArg (fun z : ℤ => (z : ℚ)) (Int.toNat_of_nonneg hrn)]
      exact roundHalfEven_sub_le _

/-- Claim C2 witness: a successful concrete run whose first subplot carries
the percentage formatter on both axes, and the concrete rendering bound at
the raw value 900000. -/
theorem C2_witness :
    run w0 = .ok fin0 ∧
    (applyFmt (sp0 "Scenario 1: Single User Demand").fmt1 = percentage_formatter ∧
      applyFmt (sp0 "Scenario 1: Single User Demand").fmt2 = percentage_formatter) ∧
    (∃ t : ℕ, percentage_formatter 900000 0 =
        (if pyDiv 900000 1000000 < 0 then "-" else "") ++
          toString (t / 10) ++ "." ++ toString (t % 10) ++ "%" ∧
      (toString (t % 10)).length = 1 ∧
      |(t : ℚ) - |pyDiv 900000 1000000| * 10| ≤ 1/2) :=
  ⟨run_w0,
    C2_formatter_everywhere.1 w0 fin0 run_w0 (sp0 "Scenario 1: Single User Demand")
      (by simp [fin0]),
    C2_formatter_everywhere.2 900000 0⟩

/-- Claim C7: a successful run writes exactly one file,
`cultivation_scenarios.png`, at 300 DPI with a tight bounding box,
overwriting any image of that name; the CSV files and every other image are
untouched. -/
theorem C7_single_write (w : World) (fin : Final) (h : run w = .ok fin) :
    fin.writes = [{ name := "cultivation_scenarios.png", dpi := 300, bboxInches := "tight" }] ∧
    (afterRun w).files = w.files ∧
    lookupImage (afterRun w).images "cultivation_scenarios.png" = some fin ∧
    ∀ n, n ≠ "cultivation_scenarios.png" →
      lookupImage (afterRun w).images n = lookupImage w.images n := by
  obtain ⟨-, -, -, -, -, hw⟩ := run_ok h
  refine ⟨hw, afterRun_files w, ?_, ?_⟩
  · simp only [afterRun, h]
    exact lookupImage_setImage_self w.images "cultivation_scenarios.png" fin
  · intro n hn
    simp only [afterRun, h]
    exact lookupImage_setImage_ne w.images "cultivation_scenarios.png" n fin hn

/-- Claim C7 witness: the concrete successful run writes the single image and
leaves the CSV files unchanged. -/
theorem C7_witness :
    run w0 = .ok fin0 ∧
    fin0.writes = [{ name := "cultivation_scenarios.png", dpi := 300, bboxInches := "tight" }] ∧
    lookupImage (afterRun w0).images "cultivation_scenarios.png" = some fin0 :=
  ⟨run_w0, (C7_single_write w0 fin0 run_w0).1, (C7_single_write w0 fin0 run_w0).2.2.1⟩

/-- Claim C8: the run is a deterministic function of the CSV files, so a
second run on the unchanged inputs performs the same operations (same
result, including the same trace) and overwrites the output with the same
content: applying the script twice equals applying it once. -/
theorem C8_deterministic_idempotent (w : World) (fin : Final) (h : run w = .ok fin) :
    run (afterRun w) = .ok fin ∧ afterRun (afterRun w) = afterRun w := by
  have haw : afterRun w = { w with images := setImage w.images "cultivation_scenarios.png" fin } := by
    simp only [afterRun, h]
  have hrun2 : run (afterRun w) = .ok fin := by rw [haw]; exact h
  refine ⟨hrun2, ?_⟩
  rw [afterRun, hrun2, haw]
  simp [setImage_idem]

/-- Claim C8 witness: the concrete run is idempotent. -/
theorem C8_witness :
    run w0 = .ok fin0 ∧ run (afterRun w0) = .ok fin0 ∧ afterRun (afterRun w0) = afterRun w0 :=
  ⟨run_w0, (C8_deterministic_idempotent w0 fin0 run_w0).1,
    (C8_deterministic_idempotent w0 fin0 run_w0).2⟩

/-- Claim C10: on every successful run, every subplot has primary y-limits
exactly `[0, 1.1 * max(cultivation_factor)]` (so the cultivation-factor axis
always starts at 0) and twin-axis limits exactly
`[0.99 * min(prev_temp), 1.01 * max(prev_temp)]`. -/
theorem C10_ylims (w : World) (fin : Final) (h : run w = .ok fin) :
    ∀ sp ∈ fin.subplots,
      sp.ylim1.1 = 0 ∧
      (∃ m, maxQ sp.ys1 = .ok m ∧ sp.ylim1 = (0, (11/10) * m)) ∧
      (∃ a b, minQ sp.ys2 = .ok a ∧ maxQ sp.ys2 = .ok b ∧
        sp.ylim2 = ((99/100) * a, (101/100) * b)) := by
  intro sp hsp
  obtain ⟨sps, evs, hrs, hsub, -, -⟩ := run_ok h
  obtain ⟨s, -, ev, hstep⟩ := runScens_ok_mem hrs sp (by rw [← hsub]; exact hsp)
  obtain ⟨-, df, -, -, -, -, -, -, -, -, cfMax, ptMin, ptMax, hmax, hmin, hmax2, hy1, hy2⟩ :=
    scenarioStep_ok hstep
  refine ⟨by rw [hy1], ⟨cfMax, hmax, by rw [hy1, mul_comm]⟩,
    ⟨ptMin, ptMax, hmin, hmax2, ?_⟩⟩
  rw [hy2, mul_comm ptMin ((99:ℚ)/100), mul_comm ptMax ((101:ℚ)/100)]

/-- Claim C10 witness: the concrete run, first subplot: limits
`(0, 1.1*1000000)` and `(0.99*900000, 1.01*1000000)`. -/
theorem C10_witness :
    run w0 = .ok fin0 ∧
    (sp0 "Scenario 1: Single User Demand").ylim1.1 = 0 ∧
    (∃ m, maxQ (sp0 "Scenario 1: Single User Demand").ys1 = .ok m ∧
      (sp0 "Scenario 1: Single User Demand").ylim1 = (0, (11/10) * m)) :=
  ⟨run_w0,
    (C10_ylims w0 fin0 run_w0 (sp0 "Scenario 1: Single User Demand") (by simp [fin0])).1,
    (C10_ylims w0 fin0 run_w0 (sp0 "Scenario 1: Single User Demand") (by simp [fin0])).2.1⟩

/-- Claim C3 (counterexample): with scenario 1 present but lacking the
expected columns and scenario 2's file missing, an input file is missing yet
the run raises `KeyError`, not the file-not-found error the claim names. -/
theorem C3_counterexample :
    lookupCsv wC3.files "cultivation_factor_scenario2.csv" = none ∧
    run wC3 = .error (.keyError "iteration") ∧
    ∀ name, run wC3 ≠ .error (.fileNotFound name) := by
  have hrun : run wC3 = .error (.keyError "iteration") := by
    simp [run, runFiles, runScens, scenarios, scenarioStep, read_csv, lookupCsv, wC3,
      csvNoCols, Csv.col, getCol, List.find?, Bind.bind, Except.bind]
  refine ⟨by decide, hrun, ?_⟩
  intro name h
  rw [hrun] at h
  simp at h

/-- Claim C3 (amended): a run with any of the four input files missing
terminates with a propagated error before the write step — with the
file-not-found error in particular when every scenario before the missing
file succeeds — so no output file is produced. -/
theorem C3_missing_file_aborts (w : World)
    (hmiss : ∃ s ∈ scenarios, lookupCsv w.files s.1 = none) :
    ((∃ e, run w = .error e) ∧ writesOf (run w) = [] ∧ afterRun w = w) ∧
    (∀ pre s post, scenarios = pre ++ s :: post →
      (∀ t ∈ pre, ∃ r, scenarioStep w.files t.1 t.2.1 = .ok r) →
      lookupCsv w.files s.1 = none →
      run w = .error (.fileNotFound s.1)) := by
  obtain ⟨e, he⟩ := run_error_of_missing hmiss
  exact ⟨⟨⟨e, he⟩, writesOf_error he, afterRun_of_error he⟩,
    fun pre s post hsplit hpre hm => run_fnf_first hsplit hpre hm⟩

/-- Claim C3 witness: the empty world is missing every input; the run fails
with `FileNotFoundError` on scenario 1 and writes nothing. -/
theorem C3_witness :
    (∃ s ∈ scenarios, lookupCsv wE.files s.1 = none) ∧
    (∃ e, run wE = .error e) ∧ writesOf (run wE) = [] ∧ afterRun wE = wE ∧
    run wE = .error (.fileNotFound "cultivation_factor_scenario1.csv") := by
  have hmiss : ∃ s ∈ scenarios, lookupCsv wE.files s.1 = none := by decide
  have h := C3_missing_file_aborts wE hmiss
  exact ⟨hmiss, h.1.1, h.1.2.1, h.1.2.2,
    h.2 [] _ _ rfl (fun t ht => absurd ht (List.not_mem_nil t)) (by decide)⟩

/-- Claim C4: every successful run reads exactly the four fixed scenario
files, in order, and accesses exactly the columns `iteration`,
`cultivation_factor` and `prev_temp` on each — and on no other file. -/
theorem C4_fixed_reads (w : World) (fin : Final) (h : run w = .ok fin) :
    fin.trace = fullTrace ∧
    readsOf fin.trace =
      ["cultivation_factor_scenario1.csv", "cultivation_factor_scenario2.csv",
       "cultivation_factor_scenario3.csv", "cultivation_factor_scenario4.csv"] ∧
    (∀ f ∈ readsOf fin.trace,
      (colsOf fin.trace f).dedup = ["iteration", "cultivation_factor", "prev_temp"]) ∧
    (∀ f, f ∉ readsOf fin.trace → colsOf fin.trace f = []) := by
  obtain ⟨sps, evs, hrs, -, htr, -⟩ := run_ok h
  have htrace : fin.trace = fullTrace := by rw [htr, runScens_ok_events hrs]; rfl
  rw [htrace]
  have hreads : readsOf fullTrace =
      ["cultivation_factor_scenario1.csv", "cultivation_factor_scenario2.csv",
       "cultivation_factor_scenario3.csv", "cultivation_factor_scenario4.csv"] := by decide
  refine ⟨rfl, hreads, ?_, ?_⟩
  · intro f hf
    rw [hreads] at hf
    fin_cases hf <;> decide
  · intro f hf
    rw [hreads] at hf
    simp only [List.mem_cons, List.not_mem_nil, or_false] at hf
    push_neg at hf
    obtain ⟨h1, h2, h3, h4⟩ := hf
    simp [colsOf, fullTrace, scenarios, scenarioEvents]
    exact ⟨fun hh => h1 hh.symm, fun hh => h2 hh.symm,
      fun hh => h3 hh.symm, fun hh => h4 hh.symm⟩

/-- Claim C4 witness: the concrete successful run reads the four files in
order and accesses exactly the three expected columns of scenario 1. -/
theorem C4_witness :
    run w0 = .ok fin0 ∧
    readsOf fin0.trace =
      ["cultivation_factor_scenario1.csv", "cultivation_factor_scenario2.csv",
       "cultivation_factor_scenario3.csv", "cultivation_factor_scenario4.csv"] ∧
    (colsOf fin0.trace "cultivation_factor_scenario1.csv").dedup =
      ["iteration", "cultivation_factor", "prev_temp"] :=
  ⟨run_w0, (C4_fixed_reads w0 fin0 run_w0).2.1,
    (C4_fixed_reads w0 fin0 run_w0).2.2.1 "cultivation_factor_scenario1.csv" (by decide)⟩

/-- Claim C5 (counterexample): four present, column-complete CSVs with zero
rows each (`N = 0`) satisfy the claim's hypotheses, yet the run raises the
empty-sequence `ValueError` and produces no output. -/
theorem C5_counterexample :
    (∀ s ∈ scenarios, ∃ c, lookupCsv wN0.files s.1 = some c ∧ WFcsv c 0) ∧
    run wN0 = .error .valueErrorEmpty ∧ writesOf (run wN0) = [] := by
  have hwf : WFcsv csvEmptyCols 0 :=
    ⟨[], [], [], by decide, rfl, by decide, rfl, by decide, rfl⟩
  have hrun : run wN0 = .error .valueErrorEmpty := by
    simp [run, runFiles, runScens, scenarios, scenarioStep, read_csv, lookupCsv, wN0,
      csvEmptyCols, Csv.col, getCol, maxQ, List.find?, Bind.bind, Except.bind]
  refine ⟨?_, hrun, by rw [hrun]; rfl⟩
  intro s hs
  fin_cases hs <;> exact ⟨csvEmptyCols, by decide, hwf⟩

/-- Claim C5 (amended): for every `N ≥ 1`, four present CSVs each containing
the three expected columns with `N` rows make the run succeed and write
exactly one output file. -/
theorem C5_wellformed_success (N : ℕ) (hN : 1 ≤ N) (w : World)
    (h : ∀ s ∈ scenarios, ∃ c, lookupCsv w.files s.1 = some c ∧ WFcsv c N) :
    ∃ fin, run w = .ok fin ∧
      fin.writes = [{ name := "cultivation_scenarios.png", dpi := 300, bboxInches := "tight" }] := by
  have hall : ∀ s ∈ scenarios, ∃ r, scenarioStep w.files s.1 s.2.1 = .ok r := by
    intro s hs
    obtain ⟨c, hc, it, cf, pt, hit, hitN, hcf, hcfN, hpt, hptN⟩ := h s hs
    refine scenarioStep_isOk hc hit hcf hpt ?_ ?_
    · intro hnil; rw [hnil] at hcfN; simp at hcfN; omega
    · intro hnil; rw [hnil] at hptN; simp at hptN; omega
  obtain ⟨⟨sps, evs⟩, hrs⟩ := runScens_ok_of_all hall
  have hrun : run w = .ok
      { figsize := (15, 14)
        suptitle := "Cultivation Factor and Temperature Scenarios"
        subplots := sps
        descText := descText
        writes := [{ name := "cultivation_scenarios.png", dpi := 300, bboxInches := "tight" }]
        trace := evs } := by
    simp only [run, runFiles]
    rw [hrs]
    rfl
  exact ⟨_, hrun, rfl⟩

/-- Claim C5 witness: the three-row world runs successfully with exactly one
write. -/
theorem C5_witness :
    (1:ℕ) ≤ 3 ∧ (∀ s ∈ scenarios, ∃ c, lookupCsv w0.files s.1 = some c ∧ WFcsv c 3) ∧
    ∃ fin, run w0 = .ok fin ∧
      fin.writes = [{ name := "cultivation_scenarios.png", dpi := 300, bboxInches := "tight" }] := by
  have hwf : WFcsv csv0 3 :=
    ⟨[1, 2, 3], [0, 500000, 1000000], [900000, 950000, 1000000],
      by decide, rfl, by decide, rfl, by decide, rfl⟩
  have h : ∀ s ∈ scenarios, ∃ c, lookupCsv w0.files s.1 = some c ∧ WFcsv c 3 := by
    intro s hs
    fin_cases hs <;> exact ⟨csv0, by decide, hwf⟩
  exact ⟨by norm_num, h, C5_wellformed_success 3 (by norm_num) w0 h⟩

/-- Claim C6: the failure modes are exactly the propagated exceptions — a
missing file encountered by the loop raises `FileNotFoundError`, a missing
expected column raises `KeyError` — and every exception aborts the run with
nothing written and the file system unchanged (nothing is caught, retried or
recovered). -/
theorem C6_fatal_unhandled :
    (∀ (w : World) pre s post, scenarios = pre ++ s :: post →
      (∀ t ∈ pre, ∃ r, scenarioStep w.files t.1 t.2.1 = .ok r) →
      lookupCsv w.files s.1 = none →
      run w = .error (.fileNotFound s.1)) ∧
    (∀ (w : World) pre s post df, scenarios = pre ++ s :: post →
      (∀ t ∈ pre, ∃ r, scenarioStep w.files t.1 t.2.1 = .ok r) →
      lookupCsv w.files s.1 = some df →
      (¬(∃ a, df.col "iteration" = some a) ∨
        ¬(∃ a, df.col "cultivation_factor" = some a) ∨
        ¬(∃ a, df.col "prev_temp" = some a)) →
      ∃ c, c ∈ ["iteration", "cultivation_factor", "prev_temp"] ∧ df.col c = none ∧
        run w = .error (.keyError c)) ∧
    (∀ (w : World) (e : PyErr), run w = .error e →
      writesOf (run w) = [] ∧ afterRun w = w) :=
  ⟨fun w pre s post hs hp hm => run_fnf_first hs hp hm,
    fun w pre s post df hs hp hdf hm => run_keyError_first hs hp hdf hm,
    fun w e he => ⟨writesOf_error he, afterRun_of_error he⟩⟩

/-- Claim C6 witness: concrete instances of all three failure-mode parts. -/
theorem C6_witness :
    run wE = .error (.fileNotFound "cultivation_factor_scenario1.csv") ∧
    (∃ c, c ∈ ["iteration", "cultivation_factor", "prev_temp"] ∧ csvNoCols.col c = none ∧
      run wC3 = .error (.keyError c)) ∧
    writesOf (run wE) = [] ∧ afterRun wE = wE := by
  have h1 := C6_fatal_unhandled.1 wE [] _ _ rfl
    (fun t ht => absurd ht (List.not_mem_nil t)) (by decide)
  have h2 := C6_fatal_unhandled.2.1 wC3 [] _ _ csvNoCols rfl
    (fun t ht => absurd ht (List.not_mem_nil t)) (by decide)
    (Or.inl (by simp [csvNoCols, Csv.col, List.find?]))
  have h3 := C6_fatal_unhandled.2.2 wE _ h1
  exact ⟨h1, h2, h3⟩

/-- Claim C9 (counterexample): with scenario 1 lacking the expected columns
and scenario 2 a column-complete CSV with zero rows, an empty input is
present yet the run fails at the column lookup (`KeyError`), not at the
y-axis-limit computation. -/
theorem C9_counterexample :
    (∃ df, lookupCsv wC9.files "cultivation_factor_scenario2.csv" = some df ∧
      df.col "iteration" = some [] ∧ df.col "cultivation_factor" = some [] ∧
      df.col "prev_temp" = some []) ∧
    run wC9 = .error (.keyError "iteration") ∧
    run wC9 ≠ .error .valueErrorEmpty := by
  have hrun : run wC9 = .error (.keyError "iteration") := by
    simp [run, runFiles, runScens, scenarios, scenarioStep, read_csv, lookupCsv, wC9,
      csvNoCols, csvEmptyCols, Csv.col, getCol, List.find?, Bind.bind, Except.bind]
  refine ⟨⟨csvEmptyCols, by decide, by decide, by decide, by decide⟩, hrun, ?_⟩
  rw [hrun]
  simp

/-- Claim C9 (amended): if any of the four CSVs parses with all three
expected columns but zero rows, the run aborts with an error and writes no
output; when additionally every scenario before it succeeds, the error is
the empty-sequence `ValueError` raised at the y-axis-limit computation of
line 83. -/
theorem C9_empty_input_aborts (w : World)
    (hmem : ∃ s ∈ scenarios, ∃ df, lookupCsv w.files s.1 = some df ∧
      df.col "iteration" = some [] ∧ df.col "cultivation_factor" = some [] ∧
      df.col "prev_temp" = some []) :
    ((∃ e, run w = .error e) ∧ writesOf (run w) = [] ∧ afterRun w = w) ∧
    (∀ pre s post df, scenarios = pre ++ s :: post →
      (∀ t ∈ pre, ∃ r, scenarioStep w.files t.1 t.2.1 = .ok r) →
      lookupCsv w.files s.1 = some df →
      df.col "iteration" = some [] → df.col "cultivation_factor" = some [] →
      df.col "prev_temp" = some [] →
      run w = .error .valueErrorEmpty) := by
  obtain ⟨e, he⟩ := run_error_of_empty hmem
  exact ⟨⟨⟨e, he⟩, writesOf_error he, afterRun_of_error he⟩,
    fun pre s post df hs hp hdf h1 h2 h3 => run_emptyRows_first hs hp hdf h1 h2 h3⟩

/-- Claim C9 witness: the all-empty world fails with the empty-sequence
`ValueError` and writes nothing. -/
theorem C9_witness :
    (∃ s ∈ scenarios, ∃ df, lookupCsv wN0.files s.1 = some df ∧
      df.col "iteration" = some [] ∧ df.col "cultivation_factor" = some [] ∧
      df.col "prev_temp" = some []) ∧
    (∃ e, run wN0 = .error e) ∧ writesOf (run wN0) = [] ∧
    run wN0 = .error .valueErrorEmpty := by
  obtain ⟨s, hs, hs1⟩ : ∃ s ∈ scenarios, s.1 = "cultivation_factor_scenario1.csv" := by decide
  have hmem : ∃ s ∈ scenarios, ∃ df, lookupCsv wN0.files s.1 = some df ∧
      df.col "iteration" = some [] ∧ df.col "cultivation_factor" = some [] ∧
      df.col "prev_temp" = some [] :=
    ⟨s, hs, csvEmptyCols, by rw [hs1]; decide, by decide, by decide, by decide⟩
  have h := C9_empty_input_aborts wN0 hmem
  refine ⟨hmem, h.1.1, h.1.2.1, ?_⟩
  exact h.2 [] _ _ csvEmptyCols rfl (fun t ht => absurd ht (List.not_mem_nil t))
    (by decide) (by decide) (by decide) (by decide)

end PlotScenarios
